import Mathlib

/-!
Verification development for the cloudplow upload orchestrator.

Shallow embedding of the quota ledger, the adaptive stage planner, the
trigger tracker, the weekend cache logic, and the relevant fragments of the
`do_upload` orchestration loop, translated from `cloudplow.py`,
`utils/uploader.py` and `utils/path.py`.  Python float arithmetic is
modelled bit-exactly as IEEE-754 double precision (round to nearest, ties
to even) over integer significand/exponent pairs; wall-clock instants are
modelled as natural numbers (seconds).
-/

namespace Cloudplow

/-- cloudplow.py line 92: `SA_DAILY_QUOTA = 750 * 1024 * 1024 * 1024`. -/
def SA_DAILY_QUOTA : Nat := 750 * 1024 * 1024 * 1024

/-- cloudplow.py line 93: `SA_QUOTA_RESET_HOURS = 24`. -/
def SA_QUOTA_RESET_HOURS : Nat := 24

/-- Result record of `calculate_stage_params_quota_based` (cloudplow.py).
`max_transfer` and `max_size` are the integer GiB counts that the source
interpolates into the `"<n>G"` flag strings. -/
structure StageParams where
  max_transfer : Nat
  max_size : Nat
  transfers : Nat
  stage_size_bytes : Nat
  strategy : String
  order_by : Option String
  max_backlog : Option Nat
deriving Repr, DecidableEq

/-- A nonnegative finite IEEE-754 double: the value is `m * 2 ^ e`, with
`m = 0` for zero and otherwise `2^52 ≤ m < 2^53` (normalised 53-bit
significand).  Every float reached by the planner is nonnegative, finite
and far from the subnormal range, so sign, infinities, NaNs and subnormals
need no model. -/
structure PosDouble where
  m : Nat
  e : Int
deriving Repr, DecidableEq

/-- Bit length with explicit fuel (so that it reduces in the kernel):
for `n > 0`, `bitLen n = k` iff `2^(k-1) ≤ n < 2^k`. -/
def bitLenAux : Nat → Nat → Nat
  | 0, _ => 0
  | fuel + 1, n => if n = 0 then 0 else bitLenAux fuel (n / 2) + 1

/-- Bit length of a natural number (256 bits of fuel cover every value the
planner model produces). -/
def bitLen (n : Nat) : Nat := bitLenAux 256 n

/-- Round `a / b` (with `b > 0`) to the nearest integer, ties to even. -/
def roundDiv (a b : Nat) : Nat :=
  let q := a / b
  let r := a % b
  if b < 2 * r then q + 1
  else if 2 * r < b then q
  else if q % 2 = 0 then q else q + 1

/-- Round the positive rational `(a / b) * 2 ^ e` to the nearest double,
ties to even: scale `a / b` into `(2^52, 2^54)` by the bit-length estimate,
round at 53 bits, and renormalise (re-rounding at the coarser exponent, so
no double rounding) when the significand overflows. -/
def roundToDouble (a b : Nat) (e : Int) : PosDouble :=
  if a = 0 then ⟨0, 0⟩
  else
    let t : Int := 53 - (bitLen a : Int) + (bitLen b : Int)
    let m0 := if 0 ≤ t then roundDiv (a * 2 ^ t.toNat) b else roundDiv a (b * 2 ^ (-t).toNat)
    if m0 < 2 ^ 53 then ⟨m0, e - t⟩
    else
      let m1 := if 0 ≤ t - 1 then roundDiv (a * 2 ^ (t - 1).toNat) b
        else roundDiv a (b * 2 ^ (-(t - 1)).toNat)
      if m1 < 2 ^ 53 then ⟨m1, e - t + 1⟩
      else ⟨2 ^ 52, e - t + 2⟩

/-- Python `float(n)` for a nonnegative int: exact below `2^53`, correctly
rounded above. -/
def floatOfNat (n : Nat) : PosDouble := roundToDouble n 1 0

/-- A Python decimal float literal `num / den` (CPython parses literals to
the nearest double, ties to even). -/
def floatLit (num den : Nat) : PosDouble := roundToDouble num den 0

/-- IEEE double multiplication of nonnegative doubles: the exact product
`(mx * my) * 2^(ex + ey)` correctly rounded. -/
def fmul (x y : PosDouble) : PosDouble := roundToDouble (x.m * y.m) 1 (x.e + y.e)

/-- IEEE double (and Python int/int true) division of nonnegative values:
the exact quotient `(mx / my) * 2^(ex - ey)` correctly rounded. -/
def fdiv (x y : PosDouble) : PosDouble :=
  if y.m = 0 then ⟨0, 0⟩ else roundToDouble x.m y.m (x.e - y.e)

/-- Python comparison `x >= n` of a nonnegative double against a
nonnegative int (Python compares the exact values). -/
def floatGeNat (x : PosDouble) (n : Nat) : Bool :=
  if 0 ≤ x.e then decide (n ≤ x.m * 2 ^ x.e.toNat)
  else decide (n * 2 ^ (-x.e).toNat ≤ x.m)

/-- Python `int()` of a nonnegative double: truncation toward zero. -/
def intOfFloat (x : PosDouble) : Nat :=
  if 0 ≤ x.e then x.m * 2 ^ x.e.toNat else x.m / 2 ^ (-x.e).toNat

/-- cloudplow.py `calculate_stage_params_quota_based(remaining_quota_bytes,
sa_daily_quota)`: `quota_percent = remaining / daily * 100` in Python float
arithmetic, four bands at 80 / 50 / 25 percent; each byte figure is
`int(remaining * f / 1024**3)` (or `int(remaining * f)`) computed in IEEE
double arithmetic: the int operands convert to doubles (exactly, for every
byte count in range), the decimal literals `0.5 ... 0.8` parse to their
nearest doubles, and each `*` and `/` rounds to nearest, ties to even. -/
def calculate_stage_params_quota_based (remaining_quota_bytes sa_daily_quota : Nat) : StageParams :=
  let r := floatOfNat remaining_quota_bytes
  let quota_percent := fmul (fdiv r (floatOfNat sa_daily_quota)) (floatOfNat 100)
  let gib := floatOfNat (1024 ^ 3)
  if floatGeNat quota_percent 80 then
    { max_transfer := intOfFloat (fdiv (fmul r (floatLit 5 10)) gib)
      max_size := intOfFloat (fdiv (fmul r (floatLit 8 10)) gib)
      transfers := 8
      stage_size_bytes := intOfFloat (fmul r (floatLit 5 10))
      strategy := "aggressive_fresh_sa"
      order_by := some "size,desc"
      max_backlog := some 2000 }
  else if floatGeNat quota_percent 50 then
    { max_transfer := intOfFloat (fdiv (fmul r (floatLit 6 10)) gib)
      max_size := intOfFloat (fdiv (fmul r (floatLit 5 10)) gib)
      transfers := 4
      stage_size_bytes := intOfFloat (fmul r (floatLit 6 10))
      strategy := "moderate_mid_sa"
      order_by := some "size,desc"
      max_backlog := some 1000 }
  else if floatGeNat quota_percent 25 then
    { max_transfer := intOfFloat (fdiv (fmul r (floatLit 7 10)) gib)
      max_size := intOfFloat (fdiv (fmul r (floatLit 3 10)) gib)
      transfers := 6
      stage_size_bytes := intOfFloat (fmul r (floatLit 7 10))
      strategy := "cautious_low_quota"
      order_by := none
      max_backlog := none }
  else
    { max_transfer := intOfFloat (fdiv (fmul r (floatLit 8 10)) gib)
      max_size := intOfFloat (fdiv (fmul r (floatLit 2 10)) gib)
      transfers := 8
      stage_size_bytes := intOfFloat (fmul r (floatLit 8 10))
      strategy := "conservative_cleanup"
      order_by := none
      max_backlog := none }

/-- One quota-ledger entry of `sa_quota_usage[uploader][sa_file]`
(cloudplow.py): accumulated bytes, the 24-hour reset instant, and the
first-upload instant. -/
structure QuotaEntry where
  bytes : Nat
  reset_time : Nat
  first_upload : Nat
deriving Repr, DecidableEq

/-- cloudplow.py `update_sa_quota_usage(uploader_remote, sa_file,
bytes_uploaded)` on the single affected ledger entry: a missing entry is
initialised with `bytes = 0`, `reset_time = now + SA_QUOTA_RESET_HOURS *
3600`, `first_upload = now`; then `bytes += bytes_uploaded` (the source
persists the ledger to the cache file afterwards). -/
def update_sa_quota_usage (entry : Option QuotaEntry) (now bytes_uploaded : Nat) : QuotaEntry :=
  let e : QuotaEntry := match entry with
    | none =>
        { bytes := 0
          reset_time := now + SA_QUOTA_RESET_HOURS * 3600
          first_upload := now }
    | some e => e
  { e with bytes := e.bytes + bytes_uploaded }

/-- cloudplow.py `get_sa_remaining_quota(uploader_remote, sa_file)` on the
single affected ledger entry: no entry means a full `SA_DAILY_QUOTA`
remains; `time.time() >= reset_time` deletes the entry and returns the full
quota; otherwise `max(0, SA_DAILY_QUOTA - used_bytes)`.  Returns the
remaining bytes together with the entry after the call. -/
def get_sa_remaining_quota (entry : Option QuotaEntry) (now : Nat) : Int × Option QuotaEntry :=
  match entry with
  | none => ((SA_DAILY_QUOTA : Int), none)
  | some e =>
      if e.reset_time ≤ now then ((SA_DAILY_QUOTA : Int), none)
      else (max 0 ((SA_DAILY_QUOTA : Int) - (e.bytes : Int)), some e)

/-- Tracking state of one trigger phrase in `Uploader.trigger_tracks`
(utils/uploader.py): occurrence count and expiry instant (`none` models the
empty-string sentinel the source stores for "no window"). -/
structure TriggerTrack where
  count : Nat
  expires : Option Nat
deriving Repr, DecidableEq

/-- One `rclone_sleeps` trigger configuration: window length `timeout`
(seconds), occurrence threshold `count`, and `sleep` hours on abort. -/
structure TriggerConfig where
  timeout : Nat
  count : Nat
  sleep : Nat
deriving Repr, DecidableEq

/-- utils/uploader.py `Uploader.__logic`, restricted to one trigger and one
incoming line at instant `now`; `matched` is the case-insensitive substring
test `trigger_text.lower() in data.lower()`.  First the expired-window
reset (`count := 0, expires := sentinel` when a window exists and
`time.time() >= expires`), then the occurrence handling: an untracked or
zero-count trigger records a first occurrence with a fresh window and never
aborts; otherwise the count is incremented and, at
`count >= trigger_config.count`, the upload aborts with the trigger's
`sleep` hours (the source sets `delayed_check = sleep` and returns True). -/
def trigger_step (cfg : TriggerConfig) (track : Option TriggerTrack) (now : Nat)
    (matched : Bool) : Option TriggerTrack × Option Nat :=
  let track2 : Option TriggerTrack :=
    match track with
    | some t =>
        match t.expires with
        | some e => if e ≤ now then some ⟨0, none⟩ else some t
        | none => some t
    | none => none
  if matched then
    match track2 with
    | none => (some ⟨1, some (now + cfg.timeout)⟩, none)
    | some t =>
        if t.count = 0 then (some ⟨1, some (now + cfg.timeout)⟩, none)
        else if cfg.count ≤ t.count + 1 then (some ⟨t.count + 1, t.expires⟩, some cfg.sleep)
        else (some ⟨t.count + 1, t.expires⟩, none)
  else (track2, none)

/-- Days of the week, for Python `datetime.weekday()`. -/
inductive Weekday where
  | monday | tuesday | wednesday | thursday | friday | saturday | sunday
deriving Repr, DecidableEq

/-- Python `datetime.weekday()` numbering: Monday is 0, Sunday is 6. -/
def Weekday.pyWeekday : Weekday → Nat
  | .monday => 0
  | .tuesday => 1
  | .wednesday => 2
  | .thursday => 3
  | .friday => 4
  | .saturday => 5
  | .sunday => 6

/-- utils/uploader.py `Uploader.upload`:
`self.is_weekend = datetime.datetime.now().weekday() in [5, 6]`. -/
def is_weekend_run (d : Weekday) : Bool :=
  d.pyWeekday == 5 || d.pyWeekday == 6

/-- The configuration fingerprint of the transferred-files cache
(utils/uploader.py `Uploader._get_current_config`). -/
structure CacheConfig where
  upload_remote : String
  upload_folder : String
  uploader_name : String
deriving Repr, DecidableEq

/-- A per-uploader entry of the transferred-files cache. -/
structure CacheEntry where
  config : CacheConfig
  files : List String
deriving Repr, DecidableEq

/-- utils/uploader.py `Uploader._load_cached_files` for one uploader: a
missing entry (the source's `transfer_cache.get(self.name, {})` default) or
a configuration-fingerprint mismatch yields no files; otherwise the cached
file list. -/
def load_cached_files (cache_entry : Option CacheEntry) (current : CacheConfig) : List String :=
  match cache_entry with
  | none => []
  | some c => if c.config = current then c.files else []

/-- utils/uploader.py `Uploader.upload` exclude preparation: on a weekday
run with a cache facility present (`transfer_cache is not None`, outer
`Option`) every cached file is appended to `rclone_excludes`; on a weekend
run the cache contributes nothing. -/
def upload_excludes (weekend : Bool) (transfer_cache : Option (Option CacheEntry))
    (current : CacheConfig) (base_excludes : List String) : List String :=
  match weekend, transfer_cache with
  | false, some entry => base_excludes ++ load_cached_files entry current
  | _, _ => base_excludes

/-- utils/uploader.py `Uploader.upload` return-code handling: exit code 7
(rclone MaxTransferReached) is success with `delayed_check = 25`; the
synthetic -9 (trigger abort) is success with `delayed_check = 25`; status
true with exit code 0 is a clean success keeping the `delayed_check` the
trigger logic left behind (`dc`, 0 when no trigger fired); everything else
is failure.  Result: `(success, delayed_check)`. -/
def stage_outcome (return_code : Int) (upload_status : Bool) (dc : Nat) : Bool × Nat :=
  if return_code = 7 then (true, 25)
  else if return_code = -9 then (true, 25)
  else if upload_status = true ∧ return_code = 0 then (true, dc)
  else (false, dc)

/-- cloudplow.py `do_upload` stage-loop guard:
`while sa_quota_remaining > 10 * 1024**3`. -/
def stage_loop_continues (sa_quota_remaining : Nat) : Bool :=
  10 * 1024 ^ 3 < sa_quota_remaining

/-- cloudplow.py `do_upload` after the stage loop (lines 1118-1246): the
effect on this service account's ban entry in `sa_delay`.  The dedented
`if resp['cached_files_excluded'] > 0:` block breaks out of the account
loop (handler skipped, ban untouched) when the last response excluded
cached files and either a delay was set or the quota fell below 10 GiB;
otherwise `if resp_delay:` bans the account until
`now + 60 * 60 * resp_delay`, and the no-delay branch clears the ban. -/
def sa_ban_after_stage_loop (cached_files_excluded resp_delay sa_quota_remaining now : Nat)
    (prev_ban : Option Nat) : Option Nat :=
  if 0 < cached_files_excluded ∧ (resp_delay ≠ 0 ∨ sa_quota_remaining < 10 * 1024 ^ 3) then
    prev_ban
  else if resp_delay ≠ 0 then some (now + 60 * 60 * resp_delay)
  else none

/-- cloudplow.py `do_upload` account-loop skip test (lines 890-903): a
service account is skipped when `sa_quota_remaining < 1 * 1024**3`. -/
def sa_insufficient_quota (sa_quota_remaining : Nat) : Bool :=
  sa_quota_remaining < 1 * 1024 ^ 3

/-- cloudplow.py `do_upload`: the accounts that reach the per-account stage
section, from the `sa_delay` entries (`available_accounts` keeps those with
no ban) with the insufficient-quota accounts skipped by `continue`. -/
def identities_entering_stage_loop (accounts : List (String × Option Nat))
    (remaining : String → Nat) : List String :=
  ((accounts.filter (fun p => p.2.isNone)).map (fun p => p.1)).filter
    (fun sa => !(sa_insufficient_quota (remaining sa)))

/-- Python dict of rclone flags, as a partial map from flag name to value
(the source mixes value types; they are rendered as strings here, which is
irrelevant to key presence). -/
def dict_set (m : String → Option String) (k v : String) : String → Option String :=
  fun q => if q = k then some v else m q

/-- `dict.pop(k, None)`: the map without key `k`. -/
def dict_pop (m : String → Option String) (k : String) : String → Option String :=
  fun q => if q = k then none else m q

/-- cloudplow.py `do_upload` stage configuration (lines 929-952): apply the
planner output to the remote's base `rclone_extras`: always set
`--max-transfer`, `--max-size`, `--transfers`, `--cutoff-mode`; set
`--order-by` / `--max-backlog` when the planner supplies them, otherwise
pop both keys from the dict. -/
def apply_stage_flags (extras : String → Option String) (sp : StageParams) :
    String → Option String :=
  let m1 := dict_set extras "--max-transfer" (toString sp.max_transfer ++ "G")
  let m2 := dict_set m1 "--max-size" (toString sp.max_size ++ "G")
  let m3 := dict_set m2 "--transfers" (toString sp.transfers)
  let m4 := dict_set m3 "--cutoff-mode" "cautious"
  let m5 := match sp.order_by with
    | some ob => dict_set m4 "--order-by" ob
    | none => dict_pop m4 "--order-by"
  match sp.max_backlog with
  | some mb => dict_set m5 "--max-backlog" (toString mb)
  | none => dict_pop m5 "--max-backlog"

/-- The parameters of `Uploader.__init__` (utils/uploader.py), excluding
`self`: seven required followed by three with defaults
(`transfer_cache`, `json_log_path`, `rc_url`). -/
def uploader_init_params : List String :=
  ["name", "uploader_config", "rclone_config", "rclone_binary_path", "rclone_config_path",
   "plex", "dry_run", "transfer_cache", "json_log_path", "rc_url"]

/-- Number of required parameters of `Uploader.__init__`. -/
def uploader_init_required : Nat := 7

/-- Python call binding against a positional-or-keyword parameter list
(`params`, first `nreq` without defaults): `npos` positional arguments plus
the named keyword arguments.  A keyword that is not a parameter name, a
keyword for an already positionally-bound parameter, or an unbound required
parameter each raise `TypeError` (modelled as `Except.error`). -/
def bind_python_call (params : List String) (nreq npos : Nat) (kwargs : List String) :
    Except String Unit :=
  if params.length < npos then Except.error "too many positional arguments"
  else
    match kwargs.find? (fun k => !(params.contains k)) with
    | some k => Except.error ("unexpected keyword argument " ++ k)
    | none =>
        let pos_bound := params.take npos
        if kwargs.any (fun k => pos_bound.contains k) then
          Except.error "multiple values for argument"
        else if (params.take nreq).any
            (fun p => !(pos_bound.contains p || kwargs.contains p)) then
          Except.error "missing required positional argument"
        else Except.ok ()

/-- cloudplow.py `do_upload` stage construction (lines 976-990): the
per-stage `Uploader(...)` call passes 10 positional arguments plus the
keyword argument `quota_callback`. -/
def stage_uploader_construction : Except String Unit :=
  bind_python_call uploader_init_params uploader_init_required 10 ["quota_callback"]

/-- Stages executed for a service account in `do_upload`: the first stage
runs only if the `Uploader` construction binds; an exception is swallowed
by the `except Exception` handler around the uploader loop, ending the run
with zero stages. -/
def stages_executed_first_sa : Nat :=
  match stage_uploader_construction with
  | Except.ok _ => 1
  | Except.error _ => 0

/-- Outcome of reading a shelled-out command's output in
`utils/path.py get_size`: either an exception was raised somewhere, or the
(stripped) textual output. -/
inductive CmdOutcome where
  | raised
  | output (data : String)
deriving Repr, DecidableEq

/-- Python `str.isdigit` for the ASCII outputs of `du`: nonempty and all
characters ASCII digits. -/
def py_isdigit (s : String) : Bool :=
  !s.data.isEmpty && s.data.all (fun c => 48 ≤ c.toNat && c.toNat ≤ 57)

/-- utils/path.py `get_size`, local-path branch: `du -s --block-size=1G`
output parsed with `int(data) if data.isdigit() else 0`; any exception
yields 0. -/
def get_size_local (out : CmdOutcome) : Nat :=
  match out with
  | .raised => 0
  | .output data => if py_isdigit data then (data.toNat?).getD 0 else 0

/-- utils/path.py `get_size`, rclone-remote branch: empty output yields 0;
`parse` abstracts `json.loads(data).get('bytes', 0)` with `none` for a
`JSONDecodeError` (yielding 0); a parsed byte count is converted with
`int(bytes / 1024**3)`; any exception yields 0. -/
def get_size_remote (parse : String → Option Nat) (out : CmdOutcome) : Nat :=
  match out with
  | .raised => 0
  | .output data =>
      if data = "" then 0
      else
        match parse data with
        | none => 0
        | some bytes_size => bytes_size / 1024 ^ 3

/-- cloudplow.py `scheduled_uploader`: hidden-cleanup and upload are
triggered on a tick only when `used_space >= max_size_gb`. -/
def scheduled_upload_triggers (used_space max_size_gb : Nat) : Bool :=
  max_size_gb ≤ used_space

set_option maxRecDepth 8000

/-- C2 counterexample: after a stage ends with rclone exit code 7
(MaxTransferReached, treated as success), `delayed_check = 25` is
propagated as `resp_delay`; at remaining quota exactly 10 GiB ("at least
10 GiB" per the claim) no new stage starts, and once the loop ends with no
cached-file excludes in the last response the handler sets an identity ban
of `now + 25h` (here `1000 + 90000`) — contradicting the claim that no
identity ban is set after a MaxTransferReached and that the identity
simply remains usable. -/
theorem C2_counterexample :
    (stage_outcome 7 true 0).1 = true
  ∧ (stage_outcome 7 true 0).2 = 25
  ∧ stage_loop_continues (10 * 1024 ^ 3) = false
  ∧ sa_ban_after_stage_loop 0 (stage_outcome 7 true 0).2 (5 * 1024 ^ 3) 1000 none = some 91000
  ∧ sa_ban_after_stage_loop 0 (stage_outcome 7 true 0).2 (5 * 1024 ^ 3) 1000 none ≠ none := by
  decide

/-- C2 (amended): exit code 7 is treated as success for the stage and sets
`delayed_check = 25`; the stage loop keeps the same identity and starts a
new stage exactly while the re-checked remaining quota strictly exceeds
10 GiB (at exactly 10 GiB it stops).  When the loop ends after a
MaxTransferReached: if the last stage response carried no cached-file
excludes, the handler sets a 25-hour identity ban (`now + 60·60·25`)
before rotating to the next identity; if it carried cached-file excludes
(the normal weekday-cache case), `do_upload` instead breaks out of the
account loop with the ban entry untouched and no rotation at all. -/
theorem C2_max_transfer_stage_flow (rc : Int) (status : Bool) (q now cached : Nat)
    (prev_ban : Option Nat) (h7 : rc = 7) :
    (stage_outcome rc status 0).1 = true
  ∧ (stage_outcome rc status 0).2 = 25
  ∧ (stage_loop_continues q = true ↔ 10 * 1024 ^ 3 < q)
  ∧ (cached = 0 →
      sa_ban_after_stage_loop cached (stage_outcome rc status 0).2 q now none
        = some (now + 60 * 60 * 25))
  ∧ (0 < cached →
      sa_ban_after_stage_loop cached (stage_outcome rc status 0).2 q now prev_ban
        = prev_ban) := by
  subst h7
  refine ⟨rfl, rfl, by simp [stage_loop_continues], ?_, ?_⟩
  · rintro rfl
    simp [stage_outcome, sa_ban_after_stage_loop]
  · intro hc
    simp [stage_outcome, sa_ban_after_stage_loop, hc]

/-- Witness for C2 (amended) at exit code 7, quota 5 GiB, `now = 1000`:
the no-cache path bans the identity, the cached path leaves the (absent)
ban untouched. -/
theorem C2_max_transfer_stage_flow_witness :
    (7 : Int) = 7
  ∧ (stage_outcome 7 true 0).1 = true
  ∧ sa_ban_after_stage_loop 0 (stage_outcome 7 true 0).2 (5 * 1024 ^ 3) 1000 none
      = some (1000 + 60 * 60 * 25)
  ∧ sa_ban_after_stage_loop 40 (stage_outcome 7 true 0).2 (5 * 1024 ^ 3) 1000 none = none :=
  ⟨rfl, (C2_max_transfer_stage_flow 7 true (5 * 1024 ^ 3) 1000 0 none rfl).1,
    (C2_max_transfer_stage_flow 7 true (5 * 1024 ^ 3) 1000 0 none rfl).2.2.2.1 rfl,
    (C2_max_transfer_stage_flow 7 true (5 * 1024 ^ 3) 1000 40 none rfl).2.2.2.2 (by decide)⟩

/-- C3 counterexample: charging 751 GiB onto a fresh ledger entry leaves
the stored byte counter above the 750 GiB daily quota, contradicting the
claim that `charge` saturates the counter at `Q_d`. -/
theorem C3_counterexample :
    ¬ (update_sa_quota_usage none 0 (751 * 1024 ^ 3)).bytes ≤ SA_DAILY_QUOTA := by
  decide

/-- C3 (amended): `charge(up, id, delta)` creates a missing entry with
`bytes = 0`, `reset_at = now + 24h`, `first_use = now`, then adds `delta`
to the byte counter WITHOUT saturating at the daily quota (the updated
ledger is persisted after the mutation), so the stored counter can exceed
`Q_d`. -/
theorem C3_charge_adds_without_cap (entry : Option QuotaEntry) (now delta : Nat) :
    (update_sa_quota_usage entry now delta).bytes
      = (match entry with | none => 0 | some e => e.bytes) + delta
  ∧ (update_sa_quota_usage none now delta).reset_time = now + 24 * 3600
  ∧ (update_sa_quota_usage none now delta).first_upload = now
  ∧ SA_DAILY_QUOTA < (update_sa_quota_usage entry now (SA_DAILY_QUOTA + 1 + delta)).bytes := by
  obtain _ | e := entry <;>
    simp [update_sa_quota_usage, SA_QUOTA_RESET_HOURS, SA_DAILY_QUOTA] <;> omega

/-- Witness for C3 (amended): a 7-byte entry charged 3 bytes holds 10. -/
theorem C3_charge_adds_without_cap_witness :
    (update_sa_quota_usage (some ⟨7, 99, 1⟩) 5 3).bytes = 7 + 3 :=
  (C3_charge_adds_without_cap (some ⟨7, 99, 1⟩) 5 3).1

/-- C4: `remaining(up, id)` returns the full daily quota when no ledger
entry exists; when `now ≥ reset_at` it purges the expired entry and returns
`Q_d`; otherwise it returns `max(0, Q_d − bytes)`.  Hence the result is
always nonnegative and equals `Q_d` whenever `now ≥ reset_at`. -/
theorem C4_remaining_quota (entry : Option QuotaEntry) (now : Nat) :
    get_sa_remaining_quota none now = ((SA_DAILY_QUOTA : Int), none)
  ∧ (∀ e : QuotaEntry, e.reset_time ≤ now →
      get_sa_remaining_quota (some e) now = ((SA_DAILY_QUOTA : Int), none))
  ∧ (∀ e : QuotaEntry, now < e.reset_time →
      get_sa_remaining_quota (some e) now
        = (max 0 ((SA_DAILY_QUOTA : Int) - (e.bytes : Int)), some e))
  ∧ 0 ≤ (get_sa_remaining_quota entry now).1
  ∧ (∀ e : QuotaEntry, entry = some e → e.reset_time ≤ now →
      (get_sa_remaining_quota entry now).1 = (SA_DAILY_QUOTA : Int)) := by
  refine ⟨rfl, ?_, ?_, ?_, ?_⟩
  · intro e he
    simp [get_sa_remaining_quota, he]
  · intro e he
    simp [get_sa_remaining_quota, Nat.not_le.mpr he]
  · obtain _ | e := entry
    · simp [get_sa_remaining_quota]
    · simp only [get_sa_remaining_quota]
      split
      · positivity
      · exact le_max_left 0 _
  · rintro e rfl he
    simp [get_sa_remaining_quota, he]

/-- Witness for C4 at an entry whose reset time has passed. -/
theorem C4_remaining_quota_witness :
    (⟨5, 10, 0⟩ : QuotaEntry).reset_time ≤ 10
  ∧ get_sa_remaining_quota (some ⟨5, 10, 0⟩) 10 = ((SA_DAILY_QUOTA : Int), none) :=
  ⟨by decide, (C4_remaining_quota (some ⟨5, 10, 0⟩) 10).2.1 ⟨5, 10, 0⟩ (by decide)⟩

/-- C5: if a trigger's window has expired (`expires ≤ now`) when the line
carrying the next occurrence arrives while the count stands at
`threshold − 1`, the tracker resets the counter and window before counting
the new line, records it as a fresh first occurrence, and does NOT fire;
moreover an abort (carrying the trigger's sleep hours) is emitted only when
the incremented count reaches the threshold inside a still-live window, and
never on a non-matching line. -/
theorem C5_trigger_window_expiry (cfg : TriggerConfig) (t : TriggerTrack) (e now : Nat)
    (hexp : t.expires = some e) (hpast : e ≤ now) (hcount : t.count + 1 = cfg.count) :
    trigger_step cfg (some t) now true = (some ⟨1, some (now + cfg.timeout)⟩, none)
  ∧ (∀ (track : Option TriggerTrack) (st : Option TriggerTrack) (s : Nat),
      trigger_step cfg track now true = (st, some s) →
        s = cfg.sleep
        ∧ ∃ u : TriggerTrack, track = some u ∧ 1 ≤ u.count
            ∧ (∀ e2, u.expires = some e2 → now < e2)
            ∧ cfg.count ≤ u.count + 1)
  ∧ (∀ track : Option TriggerTrack, (trigger_step cfg track now false).2 = none) := by
  refine ⟨?_, ?_, ?_⟩
  · simp only [trigger_step, hexp]
    rw [if_pos hpast]
    simp
  · rintro (_ | u) st s heq
    · simp [trigger_step] at heq
    · rcases hu : u.expires with _ | e2
      · simp [trigger_step, hu] at heq
        split at heq
        · simp at heq
        · split at heq
          · simp only [Prod.mk.injEq, Option.some.injEq] at heq
            refine ⟨heq.2.symm, u, rfl, by omega, ?_, by assumption⟩
            intro e3 h3
            rw [hu] at h3
            cases h3
          · simp at heq
      · by_cases hle : e2 ≤ now
        · simp [trigger_step, hu, hle] at heq
        · simp [trigger_step, hu, hle] at heq
          split at heq
          · simp at heq
          · split at heq
            · simp only [Prod.mk.injEq, Option.some.injEq] at heq
              refine ⟨heq.2.symm, u, rfl, by omega, ?_, by assumption⟩
              intro e3 h3
              rw [hu] at h3
              injection h3 with h3
              omega
            · simp at heq
  · rintro (_ | u)
    · simp [trigger_step]
    · simp [trigger_step]

/-- Witness for C5: threshold 3, count at 2, window expired at 100, line at
150: the tracker resets and records a fresh first occurrence, no abort. -/
theorem C5_trigger_window_expiry_witness :
    (⟨2, some 100⟩ : TriggerTrack).expires = some 100
  ∧ 100 ≤ 150
  ∧ (⟨2, some 100⟩ : TriggerTrack).count + 1 = (⟨300, 3, 25⟩ : TriggerConfig).count
  ∧ trigger_step ⟨300, 3, 25⟩ (some ⟨2, some 100⟩) 150 true = (some ⟨1, some 450⟩, none) :=
  ⟨rfl, by decide, rfl,
    (C5_trigger_window_expiry ⟨300, 3, 25⟩ ⟨2, some 100⟩ 100 150 rfl (by decide) rfl).1⟩

/-- C6: for any stage whose planner strategy tag is cautious_low_quota or
conservative_cleanup, the rclone flag map assembled for the stage contains
neither `--order-by` nor `--max-backlog`: both keys are popped even if
present in the base remote configuration. -/
theorem C6_low_quota_strips_ordering (R Qd : Nat) (extras : String → Option String)
    (h : (calculate_stage_params_quota_based R Qd).strategy = "cautious_low_quota"
       ∨ (calculate_stage_params_quota_based R Qd).strategy = "conservative_cleanup") :
    apply_stage_flags extras (calculate_stage_params_quota_based R Qd) "--order-by" = none
  ∧ apply_stage_flags extras (calculate_stage_params_quota_based R Qd) "--max-backlog" = none := by
  have hob : (calculate_stage_params_quota_based R Qd).order_by = none ∧
      (calculate_stage_params_quota_based R Qd).max_backlog = none := by
    simp only [calculate_stage_params_quota_based] at h ⊢
    split_ifs at h ⊢ <;> simp_all
  obtain ⟨h1, h2⟩ := hob
  constructor <;> simp [apply_stage_flags, h1, h2, dict_pop, dict_set]

/-- Witness for C6: conservative band (R = 1 GiB of 750 GiB) with a base
configuration that carries both flags. -/
theorem C6_low_quota_strips_ordering_witness :
    ((calculate_stage_params_quota_based (2 ^ 30) (750 * 2 ^ 30)).strategy = "cautious_low_quota"
      ∨ (calculate_stage_params_quota_based (2 ^ 30) (750 * 2 ^ 30)).strategy
          = "conservative_cleanup")
  ∧ apply_stage_flags
      (fun k => if k = "--order-by" then some "size,asc"
        else if k = "--max-backlog" then some "500" else none)
      (calculate_stage_params_quota_based (2 ^ 30) (750 * 2 ^ 30)) "--order-by" = none
  ∧ apply_stage_flags
      (fun k => if k = "--order-by" then some "size,asc"
        else if k = "--max-backlog" then some "500" else none)
      (calculate_stage_params_quota_based (2 ^ 30) (750 * 2 ^ 30)) "--max-backlog" = none := by
  have h : (calculate_stage_params_quota_based (2 ^ 30) (750 * 2 ^ 30)).strategy
      = "cautious_low_quota"
      ∨ (calculate_stage_params_quota_based (2 ^ 30) (750 * 2 ^ 30)).strategy
          = "conservative_cleanup" := by
    decide
  exact ⟨h, C6_low_quota_strips_ordering (2 ^ 30) (750 * 2 ^ 30) _ h⟩

/-- C7 counterexample: a service account whose remaining quota is exactly
1 GiB passes the `remaining < 1 GiB` test as false and is NOT skipped: it
reaches the per-account stage section, contradicting the claim that
exactly 1 GiB disqualifies the identity. -/
theorem C7_counterexample :
    sa_insufficient_quota (1 * 1024 ^ 3) = false
  ∧ identities_entering_stage_loop [("sa1", none)] (fun _ => 1 * 1024 ^ 3) = ["sa1"] := by
  decide

/-- C7 (amended): the rotator skips an identity if and only if its
remaining quota is strictly below 1 GiB; every identity reaching the stage
section has `remaining < 1 GiB` false, and at exactly 1 GiB the identity is
not disqualified. -/
theorem C7_rotator_skip_strict (accounts : List (String × Option Nat))
    (remaining : String → Nat) (sa : String)
    (h : sa ∈ identities_entering_stage_loop accounts remaining) :
    ¬ remaining sa < 1 * 1024 ^ 3
  ∧ (∀ r : Nat, sa_insufficient_quota r = true ↔ r < 1 * 1024 ^ 3)
  ∧ sa_insufficient_quota (1 * 1024 ^ 3) = false := by
  refine ⟨?_, ?_, by decide⟩
  · have hmem := (List.mem_filter.mp h).2
    simpa [sa_insufficient_quota] using hmem
  · intro r
    simp [sa_insufficient_quota]

/-- Witness for C7 (amended): an unbanned identity with 2 GiB remaining
enters the stage section. -/
theorem C7_rotator_skip_strict_witness :
    "sa1" ∈ identities_entering_stage_loop [("sa1", none)] (fun _ => 2 * 1024 ^ 3)
  ∧ ¬ (2 * 1024 ^ 3 < 1 * 1024 ^ 3) :=
  ⟨by decide,
    (C7_rotator_skip_strict [("sa1", none)] (fun _ => 2 * 1024 ^ 3) "sa1" (by decide)).1⟩

/-- C8: a run is a weekend run if and only if the local weekday is Saturday
or Sunday; on a weekend run the cached transferred-set contributes no
entries to the exclude list (full re-scan), while on a weekday run every
cached file (when the cached configuration fingerprint matches the current
one) is appended to the rclone exclude list. -/
theorem C8_weekend_cache (d : Weekday) (tc : Option (Option CacheEntry))
    (current : CacheConfig) (base : List String) (entry : CacheEntry) (f : String)
    (hcfg : entry.config = current) (hf : f ∈ entry.files) :
    (is_weekend_run d = true ↔ d = Weekday.saturday ∨ d = Weekday.sunday)
  ∧ upload_excludes true tc current base = base
  ∧ upload_excludes false (some (some entry)) current base = base ++ entry.files
  ∧ f ∈ upload_excludes false (some (some entry)) current base := by
  refine ⟨?_, ?_, ?_, ?_⟩
  · cases d <;> simp [is_weekend_run, Weekday.pyWeekday]
  · cases tc <;> rfl
  · simp [upload_excludes, load_cached_files, hcfg]
  · simp only [upload_excludes, load_cached_files, hcfg, if_pos]
    exact List.mem_append_right base hf

/-- Witness for C8: a Saturday run versus a weekday run over a one-file
cache whose fingerprint matches. -/
theorem C8_weekend_cache_witness :
    (⟨⟨"rem", "fold", "up"⟩, ["a.mkv"]⟩ : CacheEntry).config = ⟨"rem", "fold", "up"⟩
  ∧ "a.mkv" ∈ (⟨⟨"rem", "fold", "up"⟩, ["a.mkv"]⟩ : CacheEntry).files
  ∧ (is_weekend_run Weekday.saturday = true
      ↔ Weekday.saturday = Weekday.saturday ∨ Weekday.saturday = Weekday.sunday)
  ∧ upload_excludes false (some (some ⟨⟨"rem", "fold", "up"⟩, ["a.mkv"]⟩)) ⟨"rem", "fold", "up"⟩
      ["base.mkv"] = ["base.mkv"] ++ ["a.mkv"] :=
  ⟨rfl, by decide,
    (C8_weekend_cache Weekday.saturday none ⟨"rem", "fold", "up"⟩ ["base.mkv"]
      ⟨⟨"rem", "fold", "up"⟩, ["a.mkv"]⟩ "a.mkv" rfl (by decide)).1,
    (C8_weekend_cache Weekday.saturday none ⟨"rem", "fold", "up"⟩ ["base.mkv"]
      ⟨⟨"rem", "fold", "up"⟩, ["a.mkv"]⟩ "a.mkv" rfl (by decide)).2.2.1⟩

/-- C9: the per-stage `Uploader(...)` construction in `do_upload` passes
the keyword argument `quota_callback`, which `Uploader.__init__` does not
declare, so the binding raises TypeError before any transfer runs; the
exception reaches the catch-all handler and the run ends with zero stages
executed, even though the stage loop itself would have been entered (the
identity had more than 10 GiB remaining). -/
theorem C9_quota_callback_type_error :
    stage_uploader_construction = Except.error "unexpected keyword argument quota_callback"
  ∧ stages_executed_first_sa = 0
  ∧ stage_loop_continues (11 * 1024 ^ 3) = true :=
  ⟨rfl, rfl, by decide⟩

/-- C10: `get_size` returns 0 instead of raising whenever the measurement
command's output is absent or unparsable or an exception occurs (both the
local `du` branch and the rclone-remote branch); consequently, in
`scheduled_uploader` a failed measurement yields `used_space = 0` and,
for any `max_size_gb > 0`, the hidden-cleanup and upload are not triggered
on that tick. -/
theorem C10_get_size_failure_yields_zero (parse : String → Option Nat) (data : String)
    (maxgb : Nat) (hparse : parse data = none) (hdigit : py_isdigit data = false)
    (hmax : 0 < maxgb) :
    get_size_remote parse CmdOutcome.raised = 0
  ∧ get_size_remote parse (CmdOutcome.output "") = 0
  ∧ get_size_remote parse (CmdOutcome.output data) = 0
  ∧ get_size_local CmdOutcome.raised = 0
  ∧ get_size_local (CmdOutcome.output data) = 0
  ∧ scheduled_upload_triggers (get_size_local CmdOutcome.raised) maxgb = false
  ∧ scheduled_upload_triggers 0 maxgb = false := by
  have htrig : scheduled_upload_triggers 0 maxgb = false := by
    simp [scheduled_upload_triggers]
    omega
  refine ⟨rfl, rfl, ?_, rfl, ?_, htrig, htrig⟩
  · by_cases hempty : data = "" <;> simp [get_size_remote, hempty, hparse]
  · simp [get_size_local, hdigit]

/-- Witness for C10: unparsable output "x", limit 5 GB. -/
theorem C10_get_size_failure_yields_zero_witness :
    ((fun _ => (none : Option Nat)) "x" : Option Nat) = none
  ∧ py_isdigit "x" = false
  ∧ 0 < 5
  ∧ get_size_remote (fun _ => none) (CmdOutcome.output "x") = 0
  ∧ scheduled_upload_triggers (get_size_local CmdOutcome.raised) 5 = false :=
  ⟨rfl, by decide, by decide,
    (C10_get_size_failure_yields_zero (fun _ => none) "x" 5 rfl (by decide) (by decide)).2.2.1,
    (C10_get_size_failure_yields_zero (fun _ => none) "x" 5 rfl (by decide) (by decide)).2.2.2.2.2.1⟩

end Cloudplow
